import Mathlib

/-!
Verification development for the real-time session client
(`backend/app/static/app.js`).  The numeric JavaScript code is embedded
shallowly: floating-point samples, rates and clock times become exact
rationals (`ℚ`), byte values become `ℕ`, 16-bit integers become `ℤ` with
explicit wrapping, and `Math.round` / JS truncation become explicit
functions on `ℚ`.  Stateful handlers become pure functions on explicit
state records; DOM-only side effects (captions, button rendering,
preview element) are not part of any modelled field.
-/

namespace Vista

/-- JS `Math.round`: round half toward positive infinity. -/
def jsRound (q : ℚ) : ℤ := ⌊q + 1/2⌋

/-- JS number-to-integer truncation (toward zero), as used by typed-array
element conversion. -/
def jsTrunc (q : ℚ) : ℤ := if q < 0 then ⌈q⌉ else ⌊q⌋

/-- JS `ToInt16`: truncate, reduce modulo 2^16, reinterpret as signed. -/
def toInt16 (q : ℚ) : ℤ :=
  let m := jsTrunc q % 65536
  if m < 32768 then m else m - 65536

/-- Indices of the input buffer visited by the inner `for` loop of
`downsampleBuffer`: from `lo` (inclusive) up to `hi` (exclusive), also
bounded by the buffer length.  In every reachable call `lo ≥ 0`. -/
def windowIndices (len : ℕ) (lo hi : ℤ) : List ℕ :=
  (List.range len).filter (fun i => decide (lo ≤ (i : ℤ) ∧ (i : ℤ) < hi))

/-- Sum of the input samples in the window `[lo, hi)`. -/
def windowSum (buffer : List ℚ) (lo hi : ℤ) : ℚ :=
  ((windowIndices buffer.length lo hi).map (fun i => buffer.getD i 0)).sum

/-- Number of input samples in the window `[lo, hi)`. -/
def windowCount (buffer : List ℚ) (lo hi : ℤ) : ℕ :=
  (windowIndices buffer.length lo hi).length

/-- One output sample of `downsampleBuffer`: `count ? accum / count : 0`. -/
def windowAvg (buffer : List ℚ) (lo hi : ℤ) : ℚ :=
  if windowCount buffer lo hi = 0 then 0
  else windowSum buffer lo hi / (windowCount buffer lo hi : ℚ)

/-- The `while (offsetResult < output.length)` loop of `downsampleBuffer`,
with `remaining = output.length - offsetResult` as the structural fuel.
`stride` is the loop-invariant `ratio = inputRate / outputRate`. -/
def dsLoop (buffer : List ℚ) (stride : ℚ) (offsetBuffer : ℤ)
    (offsetResult remaining : ℕ) : List ℚ :=
  match remaining with
  | 0 => []
  | Nat.succ r =>
    let nextOffsetBuffer := jsRound (((offsetResult : ℚ) + 1) * stride)
    windowAvg buffer offsetBuffer nextOffsetBuffer ::
      dsLoop buffer stride nextOffsetBuffer (offsetResult + 1) r

/-- `downsampleBuffer(buffer, inputRate, outputRate)` from `app.js`:
pass through unchanged when `outputRate >= inputRate`, else block-average
down to `Math.round(buffer.length / ratio)` output samples. -/
def downsampleBuffer (buffer : List ℚ) (inputRate outputRate : ℚ) : List ℚ :=
  if inputRate ≤ outputRate then buffer
  else
    let stride := inputRate / outputRate
    let newLength := (jsRound ((buffer.length : ℚ) / stride)).toNat
    dsLoop buffer stride 0 0 newLength

/-- Per-sample body of `floatToPcm16Bytes`: clamp to `[-1, 1]`, scale
negatives by `0x8000` and non-negatives by `0x7fff`, store into an
`Int16Array` element. -/
def floatToPcm16Sample (x : ℚ) : ℤ :=
  let sample := max (-1) (min 1 x)
  toInt16 (if sample < 0 then sample * 32768 else sample * 32767)

/-- `floatToPcm16Bytes` at the level of 16-bit sample values (the
byte-level view of the `Int16Array` buffer is little-endian
serialization of this list). -/
def floatToPcm16 (floatBuffer : List ℚ) : List ℤ :=
  floatBuffer.map floatToPcm16Sample

/-- The JavaScript value passed as the `mime` argument of
`queuePlaybackChunk`: `undefined` (field absent, so the default
parameter applies), `null`, a string, or any other non-string value. -/
inductive JsVal where
  | undef : JsVal
  | nullv : JsVal
  | str (s : String) : JsVal
  | other : JsVal
  deriving DecidableEq, Repr

/-- ASCII lower-casing of one character, as JS `toLowerCase` acts on
the ASCII mime strings involved here. -/
def jsToLowerChar (c : Char) : Char :=
  if 'A' ≤ c ∧ c ≤ 'Z' then Char.ofNat (c.toNat + 32) else c

/-- Character-list prefix test (JS `String.prototype.startsWith`). -/
def listStartsWith : List Char → List Char → Bool
  | _, [] => true
  | [], _ :: _ => false
  | c :: cs, d :: ds => c == d && listStartsWith cs ds

/-- JS `s.toLowerCase().startsWith(p)` for ASCII strings. -/
def lowerStartsWith (s p : String) : Bool :=
  listStartsWith (s.data.map jsToLowerChar) p.data

/-- The guard `typeof mime === "string" && mime.toLowerCase().startsWith("audio/pcm")`. -/
def mimeAccepted (mime : JsVal) : Bool :=
  match mime with
  | JsVal.str s => lowerStartsWith s "audio/pcm"
  | _ => false

/-- `view.getInt16(_, true)` on the byte pair `(lowByte, highByte)`:
little-endian signed 16-bit read. -/
def getInt16LE (lowByte highByte : ℕ) : ℤ :=
  let v := lowByte + 256 * highByte
  if v < 32768 then (v : ℤ) else (v : ℤ) - 65536

/-- The decode loop of `queuePlaybackChunk`: each little-endian 16-bit
sample divided by `0x8000`.  A trailing odd byte is dropped, exactly as
the `DataView` over `frameCount * 2` bytes drops it. -/
def decodeSamples (bytes : List ℕ) : List ℚ :=
  match bytes with
  | b0 :: b1 :: rest => ((getInt16LE b0 b1 : ℚ) / 32768) :: decodeSamples rest
  | _ => []

/-- A playback unit scheduled on the `AudioContext`: the argument of
`source.start(startAt)` together with `audioBuffer.duration` and the
decoded sample data. -/
structure Sched where
  startAt : ℚ
  duration : ℚ
  samples : List ℚ
  deriving DecidableEq, Repr

/-- `queuePlaybackChunk(base64Data, mime)` from `app.js`, with the
base64 payload already decoded to `bytes` and the device clock
`audioContext.currentTime` passed as `currentTime`.  Returns the new
`playbackCursor` together with the scheduled unit, if any.  When
`appState.audioContext` is missing, or the mime is rejected, or the
payload holds no complete frame, the cursor is unchanged and nothing is
scheduled. -/
def queuePlaybackChunk (cursor currentTime : ℚ) (hasAudioContext : Bool)
    (bytes : List ℕ) (mime : JsVal) : ℚ × Option Sched :=
  if !hasAudioContext then (cursor, none)
  else
    let resolvedMime := if mime = JsVal.undef then JsVal.str "audio/pcm;rate=24000" else mime
    if !(mimeAccepted resolvedMime) then (cursor, none)
    else
      let frameCount := bytes.length / 2
      if frameCount = 0 then (cursor, none)
      else
        let samples := decodeSamples bytes
        let duration := (frameCount : ℚ) / 24000
        let startAt := max currentTime cursor
        (startAt + duration, some ⟨startAt, duration, samples⟩)

/-- One inbound `server.audio` message together with the device clock
value observed when it is handled. -/
structure InboundAudio where
  currentTime : ℚ
  bytes : List ℕ
  mime : JsVal
  deriving DecidableEq, Repr

/-- Sequential handling of inbound audio messages by
`queuePlaybackChunk`, threading the playback cursor and collecting the
scheduled units in arrival order. -/
def processChunks (hasAudioContext : Bool) (cursor : ℚ) :
    List InboundAudio → ℚ × List Sched
  | [] => (cursor, [])
  | e :: rest =>
    let fst := queuePlaybackChunk cursor e.currentTime hasAudioContext e.bytes e.mime
    let tail := processChunks hasAudioContext fst.1 rest
    (tail.1, fst.2.toList ++ tail.2)

/-- The gapless-chain property: starting from cursor `c0`, every
scheduled unit starts no earlier than the current cursor (hence no
earlier than the previous unit's end), has nonnegative duration, and
the chain ends at cursor `c1 ≥` the running cursor. -/
def Chained (c0 : ℚ) : List Sched → ℚ → Prop
  | [], c1 => c0 ≤ c1
  | s :: rest, c1 => c0 ≤ s.startAt ∧ 0 ≤ s.duration ∧ Chained (s.startAt + s.duration) rest c1

/-- The three enable flags of `appState` (the spec's `MediaSourceState`). -/
structure MediaFlags where
  micEnabled : Bool
  cameraEnabled : Bool
  screenEnabled : Bool
  deriving DecidableEq, Repr

/-- Initial flag values from the `appState` literal:
`micEnabled: true, cameraEnabled: false, screenEnabled: false`. -/
def initialFlags : MediaFlags :=
  { micEnabled := true, cameraEnabled := false, screenEnabled := false }

/-- The flag-mutating user and device events: the three toggle click
handlers (with `ok` recording whether the guarded `try` body succeeded
or threw, taking the `catch` revert path) and the screen track `ended`
listener installed by `ensureScreenCapture`. -/
inductive MediaEvent where
  | camToggle (ok : Bool) : MediaEvent
  | screenToggle (ok : Bool) : MediaEvent
  | micToggle (ok : Bool) : MediaEvent
  | screenEnded : MediaEvent
  deriving DecidableEq, Repr

/-- The `cameraToggle` click handler restricted to the flag fields:
`nextValue = !cameraEnabled`; set `cameraEnabled = nextValue`; if
`nextValue` then `screenEnabled = false`; on error revert
`cameraEnabled = !nextValue` (the screen flag is not restored). -/
def camToggleStep (ok : Bool) (s : MediaFlags) : MediaFlags :=
  let nextValue := !s.cameraEnabled
  let s1 := { s with cameraEnabled := nextValue,
                     screenEnabled := if nextValue then false else s.screenEnabled }
  if ok then s1 else { s1 with cameraEnabled := !nextValue }

/-- The `screenToggle` click handler restricted to the flag fields,
symmetric to `camToggleStep`. -/
def screenToggleStep (ok : Bool) (s : MediaFlags) : MediaFlags :=
  let nextValue := !s.screenEnabled
  let s1 := { s with screenEnabled := nextValue,
                     cameraEnabled := if nextValue then false else s.cameraEnabled }
  if ok then s1 else { s1 with screenEnabled := !nextValue }

/-- The `micToggle` click handler restricted to the flag fields. -/
def micToggleStep (ok : Bool) (s : MediaFlags) : MediaFlags :=
  let s1 := { s with micEnabled := !s.micEnabled }
  if ok then s1 else { s1 with micEnabled := !s1.micEnabled }

/-- The screen track `ended` listener: `appState.screenEnabled = false`. -/
def screenEndedStep (s : MediaFlags) : MediaFlags :=
  { s with screenEnabled := false }

/-- Dispatch one flag-mutating event. -/
def mediaStep (e : MediaEvent) (s : MediaFlags) : MediaFlags :=
  match e with
  | MediaEvent.camToggle ok => camToggleStep ok s
  | MediaEvent.screenToggle ok => screenToggleStep ok s
  | MediaEvent.micToggle ok => micToggleStep ok s
  | MediaEvent.screenEnded => screenEndedStep s

/-- Run a sequence of flag-mutating events. -/
def mediaRun (s : MediaFlags) : List MediaEvent → MediaFlags
  | [] => s
  | e :: rest => mediaRun (mediaStep e s) rest

/-- The capture-related slice of `appState`: enable flags, device
handles (`true` = handle held, `false` = `null`), the 1 Hz frame timer,
and whether the websocket is open (`sessionRunning()`).  DOM-only
fields (preview element, buttons) are omitted. -/
structure AppState where
  micEnabled : Bool
  cameraEnabled : Bool
  screenEnabled : Bool
  micStream : Bool
  processor : Bool
  captureSource : Bool
  monitorGain : Bool
  camStream : Bool
  screenStream : Bool
  videoTimer : Bool
  wsOpen : Bool
  deriving DecidableEq, Repr

/-- `restartVisualFrameTimer`: clear any timer, then re-arm it exactly
when the session is running and a visual source is enabled. -/
def restartVisualFrameTimer (s : AppState) : AppState :=
  { s with videoTimer := s.wsOpen && (s.cameraEnabled || s.screenEnabled) }

/-- `disableMicCapture`: disconnect and null the processor, capture
source and monitor gain nodes, stop and null the mic stream. -/
def disableMicCapture (s : AppState) : AppState :=
  { s with processor := false, captureSource := false,
           monitorGain := false, micStream := false }

/-- `stopCameraCapture`: stop the camera tracks and null the stream
(`updatePreviewSource` touches only the DOM). -/
def stopCameraCapture (s : AppState) : AppState :=
  { s with camStream := false }

/-- `stopScreenCapture`: stop the screen tracks, null the stream, then
call `restartVisualFrameTimer`. -/
def stopScreenCapture (s : AppState) : AppState :=
  restartVisualFrameTimer { s with screenStream := false }

/-- `stopMedia`: clear the frame timer, then `disableMicCapture`,
`stopScreenCapture`, `stopCameraCapture` in that order. -/
def stopMedia (s : AppState) : AppState :=
  stopCameraCapture (stopScreenCapture (disableMicCapture { s with videoTimer := false }))

/-- Device-handle actions performed by the visual-capture functions, in
program order: acquisitions (`getUserMedia` / `getDisplayMedia`) and
releases (`track.stop()` loops). -/
inductive VisualAct where
  | acquireScreen : VisualAct
  | releaseScreen : VisualAct
  | acquireCamera : VisualAct
  | releaseCamera : VisualAct
  deriving DecidableEq, Repr

/-- `ensureScreenCapture` with its action trace: a no-op unless the
screen flag is set, the session is running, and no screen stream is
held yet; otherwise it acquires the display stream (success path). -/
def ensureScreenCaptureT (s : AppState) : List VisualAct × AppState :=
  if !s.screenEnabled || !s.wsOpen || s.screenStream then ([], s)
  else ([VisualAct.acquireScreen], { s with screenStream := true })

/-- `ensureCameraCapture` with its action trace (success path). -/
def ensureCameraCaptureT (s : AppState) : List VisualAct × AppState :=
  if !s.cameraEnabled || !s.wsOpen || s.camStream then ([], s)
  else ([VisualAct.acquireCamera], { s with camStream := true })

/-- `stopScreenCapture` with its action trace: the `track.stop()` loop
runs only when a screen stream is held. -/
def stopScreenCaptureT (s : AppState) : List VisualAct × AppState :=
  (if s.screenStream then [VisualAct.releaseScreen] else [],
   restartVisualFrameTimer { s with screenStream := false })

/-- `stopCameraCapture` with its action trace. -/
def stopCameraCaptureT (s : AppState) : List VisualAct × AppState :=
  (if s.camStream then [VisualAct.releaseCamera] else [], { s with camStream := false })

/-- `syncVisualCapture` with its device-handle action trace, recording
the order in which acquisitions and releases happen: if the screen flag
is set, `ensureScreenCapture` runs BEFORE `stopCameraCapture`;
otherwise `stopScreenCapture` runs before `ensureCameraCapture` /
`stopCameraCapture`.  Ends with `restartVisualFrameTimer`. -/
def syncVisualCaptureT (s : AppState) : List VisualAct × AppState :=
  if !s.wsOpen then ([], s)
  else if s.screenEnabled then
    let a := ensureScreenCaptureT s
    let b := stopCameraCaptureT a.2
    (a.1 ++ b.1, restartVisualFrameTimer b.2)
  else
    let a := stopScreenCaptureT s
    let b := if s.cameraEnabled then ensureCameraCaptureT a.2 else stopCameraCaptureT a.2
    (a.1 ++ b.1, restartVisualFrameTimer b.2)

/-- Occurrence of action `a` strictly before an occurrence of `b` in a
trace. -/
def occursBefore (a b : VisualAct) : List VisualAct → Bool
  | [] => false
  | x :: rest => (x == a && rest.contains b) || occursBefore a b rest

/-- Outbound message kinds, by their `type` discriminators
(`client.init`, `client.audio`, `client.video`, `client.confirm`,
`client.stop`). -/
inductive OutMsg where
  | init : OutMsg
  | audio : OutMsg
  | video : OutMsg
  | confirm : OutMsg
  | stop : OutMsg
  deriving DecidableEq, Repr

/-- Result of `primaryActionState()`. -/
inductive PrimaryAction where
  | start : PrimaryAction
  | confirm : PrimaryAction
  | stop : PrimaryAction
  deriving DecidableEq, Repr

/-- The session-level slice of `appState` read by the primary-action
button: `sessionRunning()` (websocket open) and
`assistantResponseReady`. -/
structure UiState where
  wsOpen : Bool
  assistantResponseReady : Bool
  deriving DecidableEq, Repr

/-- `primaryActionState()`: "start" when no session is running,
otherwise "confirm" when a response awaits acknowledgment, else
"stop". -/
def primaryActionState (s : UiState) : PrimaryAction :=
  if !s.wsOpen then PrimaryAction.start
  else if s.assistantResponseReady then PrimaryAction.confirm
  else PrimaryAction.stop

/-- The `start` button click handler: dispatch on `primaryActionState`.
The confirm branch re-checks that the socket is open, clears
`assistantResponseReady` and sends `client.confirm`.  The stop branch
runs `stopSession({notifyServer: true})`, which sends `client.stop` on
the open socket and tears the session down.  The start branch runs
`startSession()`: on success (`startOk`) the socket is open, `init` has
been sent and `assistantResponseReady` is false; on failure the catch
block runs `stopSession({notifyServer: false})`, which sends nothing. -/
def startClick (s : UiState) (startOk : Bool) : UiState × List OutMsg :=
  match primaryActionState s with
  | PrimaryAction.confirm =>
    if !s.wsOpen then (s, [])
    else ({ s with assistantResponseReady := false }, [OutMsg.confirm])
  | PrimaryAction.stop =>
    ({ wsOpen := false, assistantResponseReady := false }, [OutMsg.stop])
  | PrimaryAction.start =>
    if startOk then ({ wsOpen := true, assistantResponseReady := false }, [OutMsg.init])
    else ({ wsOpen := false, assistantResponseReady := false }, [])

/-- The JSON object sent by the `onaudioprocess` handler, as an ordered
field list (the base64 payload string is passed in already encoded). -/
def audioMessageFields (payloadB64 : String) : List (String × String) :=
  [("type", "client.audio"), ("mime", "audio/pcm;rate=16000"), ("data_b64", payloadB64)]

/-- The JSON object sent by `sendVisualFrame`, as an ordered field
list. -/
def videoMessageFields (base64Data : String) : List (String × String) :=
  [("type", "client.video"), ("mime", "image/jpeg"), ("data_b64", base64Data)]

/-- Modelled from the spec (section 6): the outbound audio schema the
spec asserts, with its field names, for comparison with
`audioMessageFields`. -/
def specAudioMessageFields (payloadB64 : String) : List (String × String) :=
  [("type", "client.audio"), ("mime", "audio/pcm;rate=16000"), ("dataEncoded", payloadB64)]

/-- Modelled from the spec (section 6): the outbound video schema the
spec asserts, for comparison with `videoMessageFields`. -/
def specVideoMessageFields (base64Data : String) : List (String × String) :=
  [("type", "client.video"), ("mime", "image/jpeg"), ("dataEncoded", base64Data)]

/-- The guard-and-send body of the `onaudioprocess` handler: nothing is
sent unless the session is running. -/
def onAudioProcessSend (running : Bool) (payloadB64 : String) : List (List (String × String)) :=
  if running then [audioMessageFields payloadB64] else []

/-- `sendVisualFrame`: nothing is sent unless the session is running. -/
def sendVisualFrameMsgs (running : Bool) (base64Data : String) : List (List (String × String)) :=
  if running then [videoMessageFields base64Data] else []

/-! Helper lemmas. -/

/-- Storing an already-in-range 16-bit value into an `Int16Array`
element does not wrap. -/
lemma toInt16_eq_jsTrunc (q : ℚ) (h1 : -32768 ≤ jsTrunc q) (h2 : jsTrunc q ≤ 32767) :
    toInt16 q = jsTrunc q := by
  simp only [toInt16]
  split <;> omega

/-- One flag-mutating event preserves camera/screen exclusion. -/
lemma mediaStep_not_both (e : MediaEvent) (s : MediaFlags)
    (h : (s.cameraEnabled && s.screenEnabled) = false) :
    ((mediaStep e s).cameraEnabled && (mediaStep e s).screenEnabled) = false := by
  rcases s with ⟨m, c, sc⟩
  cases e with
  | camToggle ok => cases ok <;> cases c <;> cases sc <;> simp_all [mediaStep, camToggleStep]
  | screenToggle ok => cases ok <;> cases c <;> cases sc <;> simp_all [mediaStep, screenToggleStep]
  | micToggle ok => cases ok <;> simp_all [mediaStep, micToggleStep]
  | screenEnded => simp_all [mediaStep, screenEndedStep]

/-- Any event sequence preserves camera/screen exclusion. -/
lemma mediaRun_not_both : ∀ (evs : List MediaEvent) (s : MediaFlags),
    (s.cameraEnabled && s.screenEnabled) = false →
    ((mediaRun s evs).cameraEnabled && (mediaRun s evs).screenEnabled) = false := by
  intro evs
  induction evs with
  | nil => intro s h; simpa [mediaRun] using h
  | cons e rest ih => intro s h; simp only [mediaRun]; exact ih _ (mediaStep_not_both e s h)

/-- Case analysis of `queuePlaybackChunk`: it either rejects the chunk
(cursor unchanged, nothing scheduled) or schedules it at
`max currentTime cursor` with nonnegative duration, advancing the
cursor to the unit's end. -/
lemma queuePlaybackChunk_cases (c t : ℚ) (ctx : Bool) (b : List ℕ) (m : JsVal) :
    queuePlaybackChunk c t ctx b m = (c, none) ∨
    (∃ s : Sched, queuePlaybackChunk c t ctx b m = (s.startAt + s.duration, some s) ∧
      s.startAt = max t c ∧ 0 ≤ s.duration) := by
  cases ctx with
  | false => left; simp [queuePlaybackChunk]
  | true =>
    by_cases hm : mimeAccepted (if m = JsVal.undef then JsVal.str "audio/pcm;rate=24000" else m) = true
    · by_cases hf : b.length / 2 = 0
      · left; simp [queuePlaybackChunk, hm, hf]
      · right
        refine ⟨⟨max t c, ((b.length / 2 : ℕ) : ℚ) / 24000, decodeSamples b⟩, ?_, rfl, by positivity⟩
        simp [queuePlaybackChunk, hm, hf]
    · left
      simp [queuePlaybackChunk, Bool.not_eq_true _ ▸ hm]

/-- A chained schedule never moves the cursor backwards. -/
lemma chained_le : ∀ (l : List Sched) (c0 c1 : ℚ), Chained c0 l c1 → c0 ≤ c1 := by
  intro l
  induction l with
  | nil => intro c0 c1 h; exact h
  | cons s rest ih =>
    intro c0 c1 h
    obtain ⟨h1, h2, h3⟩ := h
    have h4 := ih _ _ h3
    linarith

/-- Processing any inbound sequence yields a gapless, non-overlapping
chain of scheduled units. -/
lemma processChunks_chained : ∀ (evs : List InboundAudio) (ctx : Bool) (c : ℚ),
    Chained c (processChunks ctx c evs).2 (processChunks ctx c evs).1 := by
  intro evs
  induction evs with
  | nil => intro ctx c; simp [processChunks, Chained]
  | cons e rest ih =>
    intro ctx c
    rcases queuePlaybackChunk_cases c e.currentTime ctx e.bytes e.mime with h | ⟨s, h, hst, hd⟩
    · simp only [processChunks, h, Option.toList, List.nil_append]
      exact ih ctx c
    · simp only [processChunks, h, Option.toList, List.cons_append, List.nil_append]
      refine ⟨?_, hd, ih ctx _⟩
      rw [hst]
      exact le_max_right _ _

/-- The `dsLoop` fuel equals the produced length. -/
lemma dsLoop_length : ∀ (remaining offsetResult : ℕ) (ob : ℤ) (buffer : List ℚ) (stride : ℚ),
    (dsLoop buffer stride ob offsetResult remaining).length = remaining := by
  intro remaining
  induction remaining with
  | zero => intro o ob buffer stride; simp [dsLoop]
  | succ r ih => intro o ob buffer stride; simp [dsLoop, ih]

/-- Loop invariant of `downsampleBuffer`: when `offsetBuffer` enters an
iteration equal to `round(offsetResult * ratio)`, the `j`-th produced
sample is the window average over
`[round((offsetResult+j) * ratio), round((offsetResult+j+1) * ratio))`. -/
lemma dsLoop_getD : ∀ (remaining : ℕ) (buffer : List ℚ) (stride : ℚ) (offsetResult : ℕ) (ob : ℤ),
    ob = jsRound ((offsetResult : ℚ) * stride) →
    ∀ j : ℕ, j < remaining →
      (dsLoop buffer stride ob offsetResult remaining).getD j 0
        = windowAvg buffer (jsRound (((offsetResult + j : ℕ) : ℚ) * stride))
            (jsRound ((((offsetResult + j : ℕ) : ℚ) + 1) * stride)) := by
  intro remaining
  induction remaining with
  | zero => intro buffer stride o ob hob j hj; exact absurd hj (by omega)
  | succ r ih =>
    intro buffer stride o ob hob j hj
    cases j with
    | zero =>
      simp only [dsLoop, List.getD_cons_zero]
      rw [hob]
      norm_num
    | succ j' =>
      simp only [dsLoop, List.getD_cons_succ]
      have hnext : jsRound (((o : ℚ) + 1) * stride) = jsRound (((o + 1 : ℕ) : ℚ) * stride) := by
        push_cast
        ring_nf
      have hidx : o + 1 + j' = o + (j' + 1) := by omega
      rw [ih buffer stride (o + 1) _ hnext j' (by omega), hidx]

/-! Claim theorems. -/

/-- Claim C1: every chunk accepted by `queuePlaybackChunk` is scheduled
at `max(currentDeviceClock, PlaybackCursor)` with the cursor advancing
to that start plus the chunk's duration; consequently, over any
sequence of inbound audio messages, scheduled start times are
non-decreasing, each unit starts no earlier than the previous unit's
end, and the playback cursor is monotonically non-decreasing. -/
theorem C1_playback_schedule : ∀ (ctx : Bool) (c t : ℚ) (b : List ℕ) (m : JsVal)
    (evs : List InboundAudio) (s : Sched),
    ((queuePlaybackChunk c t ctx b m).2 = some s →
      s.startAt = max t c ∧
      (queuePlaybackChunk c t ctx b m).1 = s.startAt + s.duration ∧ 0 ≤ s.duration) ∧
    Chained c (processChunks ctx c evs).2 (processChunks ctx c evs).1 := by
  intro ctx c t b m evs s
  refine ⟨?_, processChunks_chained evs ctx c⟩
  intro hsome
  rcases queuePlaybackChunk_cases c t ctx b m with h | ⟨s2, h, hst, hd⟩
  · rw [h] at hsome; simp at hsome
  · rw [h] at hsome
    simp only [Option.some.injEq] at hsome
    subst hsome
    exact ⟨hst, by rw [h], hd⟩

/-- Witness for C1 at a concrete accepted chunk: one 2-byte frame with
clock 2 and cursor 0 is scheduled at `max 2 0` and advances the cursor
by `1/24000`. -/
theorem C1_witness :
    (Sched.mk 2 (1/24000) [0]).startAt = max 2 0 ∧
    (queuePlaybackChunk 0 2 true [0, 0] JsVal.undef).1
      = (Sched.mk 2 (1/24000) [0]).startAt + (Sched.mk 2 (1/24000) [0]).duration ∧
    (0 : ℚ) ≤ (Sched.mk 2 (1/24000) [0]).duration :=
  (C1_playback_schedule true 0 2 [0, 0] JsVal.undef [] (Sched.mk 2 (1/24000) [0])).1 (by
    have hm : mimeAccepted (JsVal.str "audio/pcm;rate=24000") = true := by decide
    norm_num [queuePlaybackChunk, hm, decodeSamples, getInt16LE, max_def])

/-- Claim C2: after any sequence of camera/screen/mic toggles
(including their error-recovery reverts) and external screen-share
terminations starting from the initial state, `cameraEnabled` and
`screenEnabled` are never both true; every step preserves the
exclusion, and the success path of enabling one visual source clears
the other's flag in the same step. -/
theorem C2_visual_exclusion :
    (∀ evs : List MediaEvent,
      ((mediaRun initialFlags evs).cameraEnabled &&
        (mediaRun initialFlags evs).screenEnabled) = false) ∧
    (∀ (e : MediaEvent) (s : MediaFlags),
      (s.cameraEnabled && s.screenEnabled) = false →
      ((mediaStep e s).cameraEnabled && (mediaStep e s).screenEnabled) = false) ∧
    (∀ s : MediaFlags,
      ((camToggleStep true s).cameraEnabled = true →
        (camToggleStep true s).screenEnabled = false) ∧
      ((screenToggleStep true s).screenEnabled = true →
        (screenToggleStep true s).cameraEnabled = false)) :=
  ⟨fun evs => mediaRun_not_both evs initialFlags (by decide),
   mediaStep_not_both,
   fun s => by
    rcases s with ⟨m, c, sc⟩
    cases c <;> cases sc <;> simp [camToggleStep, screenToggleStep]⟩

/-- Witness for C2: enabling the camera while the screen flag is set
leaves the two flags exclusive and clears the screen flag. -/
theorem C2_witness :
    ((mediaStep (MediaEvent.camToggle true) (MediaFlags.mk true false true)).cameraEnabled &&
      (mediaStep (MediaEvent.camToggle true) (MediaFlags.mk true false true)).screenEnabled)
      = false ∧
    (camToggleStep true (MediaFlags.mk true false true)).screenEnabled = false :=
  ⟨C2_visual_exclusion.2.1 (MediaEvent.camToggle true) (MediaFlags.mk true false true) (by decide),
   (C2_visual_exclusion.2.2 (MediaFlags.mk true false true)).1 (by decide)⟩

/-- Claim C3: `downsampleBuffer` passes the input through unchanged
when the input rate is at most 16000, and otherwise produces
`round(N / (R/16000))` samples, each the average of the input samples
in its window `[round(k*ratio), round((k+1)*ratio))` (0 when the window
is empty). -/
theorem C3_downsample : ∀ (buffer : List ℚ) (inputRate : ℚ),
    (inputRate ≤ 16000 → downsampleBuffer buffer inputRate 16000 = buffer) ∧
    (16000 < inputRate →
      (downsampleBuffer buffer inputRate 16000).length
        = (jsRound ((buffer.length : ℚ) / (inputRate / 16000))).toNat ∧
      ∀ k : ℕ, k < (downsampleBuffer buffer inputRate 16000).length →
        (downsampleBuffer buffer inputRate 16000).getD k 0
          = windowAvg buffer (jsRound ((k : ℚ) * (inputRate / 16000)))
              (jsRound (((k : ℚ) + 1) * (inputRate / 16000)))) := by
  intro buffer inputRate
  constructor
  · intro h
    simp [downsampleBuffer, h]
  · intro h
    have hns : ¬ inputRate ≤ 16000 := not_le.mpr h
    have hlen : (downsampleBuffer buffer inputRate 16000).length
        = (jsRound ((buffer.length : ℚ) / (inputRate / 16000))).toNat := by
      simp only [downsampleBuffer, if_neg hns]
      exact dsLoop_length _ _ _ _ _
    refine ⟨hlen, ?_⟩
    intro k hk
    rw [hlen] at hk
    have hob : (0 : ℤ) = jsRound (((0 : ℕ) : ℚ) * (inputRate / 16000)) := by
      norm_num [jsRound]
    simp only [downsampleBuffer, if_neg hns]
    rw [dsLoop_getD _ buffer (inputRate / 16000) 0 0 hob k hk]
    norm_num

/-- Witness for C3: a 6-sample buffer passes through at 8 kHz, and at
48 kHz yields `round(6/3) = 2` samples with sample 1 the average of
its window. -/
theorem C3_witness :
    downsampleBuffer [1, 0, 1, 0, 1, 0] 8000 16000 = [1, 0, 1, 0, 1, 0] ∧
    (downsampleBuffer [1, 0, 1, 0, 1, 0] 48000 16000).length
      = (jsRound ((([1, 0, 1, 0, 1, 0] : List ℚ).length : ℚ) / (48000 / 16000))).toNat ∧
    (downsampleBuffer [1, 0, 1, 0, 1, 0] 48000 16000).getD 1 0
      = windowAvg [1, 0, 1, 0, 1, 0] (jsRound ((1 : ℚ) * (48000 / 16000)))
          (jsRound (((1 : ℚ) + 1) * (48000 / 16000))) :=
  ⟨(C3_downsample [1, 0, 1, 0, 1, 0] 8000).1 (by norm_num),
   ((C3_downsample [1, 0, 1, 0, 1, 0] 48000).2 (by norm_num)).1,
   ((C3_downsample [1, 0, 1, 0, 1, 0] 48000).2 (by norm_num)).2 1 (by
     norm_num [downsampleBuffer, dsLoop, jsRound, List.length])⟩

/-- Claim C4: an inbound audio payload whose declared string mime does
not start with "audio/pcm" (case-insensitively) is rejected without
scheduling anything and without changing the playback cursor. -/
theorem C4_reject_non_pcm : ∀ (cursor t : ℚ) (ctx : Bool) (bytes : List ℕ) (s : String),
    lowerStartsWith s "audio/pcm" = false →
    queuePlaybackChunk cursor t ctx bytes (JsVal.str s) = (cursor, none) := by
  intro c t ctx bytes s h
  cases ctx <;> simp [queuePlaybackChunk, mimeAccepted, h]

/-- Witness for C4: an `audio/ogg` payload leaves the cursor at 5 and
schedules nothing. -/
theorem C4_witness :
    queuePlaybackChunk 5 7 true [1, 2] (JsVal.str "audio/ogg") = (5, none) :=
  C4_reject_non_pcm 5 7 true [1, 2] "audio/ogg" (by decide)

/-- Counterexample to C5 as stated: enabling screen while the camera
stream is held produces the action trace
`[acquireScreen, releaseCamera]` — the camera handle is NOT released
before screen acquisition starts. -/
theorem C5_counterexample :
    (syncVisualCaptureT (AppState.mk false false true false false false false true false true true)).1
      = [VisualAct.acquireScreen, VisualAct.releaseCamera] ∧
    occursBefore VisualAct.releaseCamera VisualAct.acquireScreen
      (syncVisualCaptureT (AppState.mk false false true false false false false true false true true)).1
      = false := by
  decide

/-- Amended C5: when camera is enabled while screen is active, the
screen stream is stopped and released before camera acquisition; when
screen is enabled while camera is active, screen acquisition happens
first and the camera handle is released immediately afterwards. -/
theorem C5_amended_ordering : ∀ s : AppState, s.wsOpen = true →
    (s.cameraEnabled = true → s.screenEnabled = false → s.screenStream = true →
      s.camStream = false →
      (syncVisualCaptureT s).1 = [VisualAct.releaseScreen, VisualAct.acquireCamera]) ∧
    (s.screenEnabled = true → s.screenStream = false → s.camStream = true →
      (syncVisualCaptureT s).1 = [VisualAct.acquireScreen, VisualAct.releaseCamera]) := by
  intro s hw
  constructor
  · intro hc hs hss hcs
    simp [syncVisualCaptureT, hw, hs, hc, hss, hcs, stopScreenCaptureT,
      ensureCameraCaptureT, stopCameraCaptureT, restartVisualFrameTimer]
  · intro hs hss hcs
    simp [syncVisualCaptureT, hw, hs, hss, hcs, ensureScreenCaptureT, stopCameraCaptureT,
      restartVisualFrameTimer]

/-- Witness for the amended C5 at two concrete states, one per
direction of the visual-source switch. -/
theorem C5_witness :
    (syncVisualCaptureT (AppState.mk false true false false false false false false true true true)).1
      = [VisualAct.releaseScreen, VisualAct.acquireCamera] ∧
    (syncVisualCaptureT (AppState.mk false false true false false false false true false true true)).1
      = [VisualAct.acquireScreen, VisualAct.releaseCamera] :=
  ⟨(C5_amended_ordering (AppState.mk false true false false false false false false true true true)
      rfl).1 rfl rfl rfl rfl,
   (C5_amended_ordering (AppState.mk false false true false false false false true false true true)
      rfl).2 rfl rfl rfl⟩

/-- Counterexample to C6 as stated: `stopMedia` leaves the enable
flags untouched, and in a state where the websocket is still open with
a visual source enabled the frame timer is re-armed rather than
cancelled. -/
theorem C6_counterexample :
    (stopMedia (AppState.mk true true false true true true true true false true true)).micEnabled
      = true ∧
    (stopMedia (AppState.mk true true false true true true true true false true true)).cameraEnabled
      = true ∧
    (stopMedia (AppState.mk true true false true true true true true false true true)).videoTimer
      = true := by
  decide

/-- Amended C6: `stopMedia` releases every device handle (mic
processing nodes, mic/camera/screen streams) and clears the frame
timer, except that `stopScreenCapture` re-arms the timer when the
session is still running with a visual source enabled; the three
enable flags are left unchanged. -/
theorem C6_amended_stopMedia : ∀ s : AppState,
    stopMedia s =
      { s with micStream := false, processor := false, captureSource := false,
               monitorGain := false, camStream := false, screenStream := false,
               videoTimer := s.wsOpen && (s.cameraEnabled || s.screenEnabled) } := by
  intro s
  simp [stopMedia, stopCameraCapture, stopScreenCapture, disableMicCapture,
    restartVisualFrameTimer]

/-- Claim C7: `client.confirm` is sent by the primary-action click
exactly when the session is running and `assistantResponseReady` is
true; in that case the handler clears the flag (back to Running), and
clicking while merely running sends no confirm. -/
theorem C7_confirm_gate : ∀ (s : UiState) (startOk : Bool),
    (OutMsg.confirm ∈ (startClick s startOk).2 ↔
      s.wsOpen = true ∧ s.assistantResponseReady = true) ∧
    (s.wsOpen = true → s.assistantResponseReady = true →
      startClick s startOk = (UiState.mk true false, [OutMsg.confirm])) ∧
    (s.wsOpen = true → s.assistantResponseReady = false →
      OutMsg.confirm ∉ (startClick s startOk).2) := by
  intro s ok
  rcases s with ⟨w, r⟩
  cases w <;> cases r <;> cases ok <;> simp [startClick, primaryActionState]

/-- Witness for C7: clicking in AwaitingConfirm sends exactly
`client.confirm` and clears the ready flag. -/
theorem C7_witness :
    startClick (UiState.mk true true) true = (UiState.mk true false, [OutMsg.confirm]) :=
  (C7_confirm_gate (UiState.mk true true) true).2.1 rfl rfl

/-- Counterexample to C8 as stated: the outbound messages carry their
payload under the field name `data_b64`, not `dataEncoded`. -/
theorem C8_counterexample :
    audioMessageFields "AA==" ≠ specAudioMessageFields "AA==" ∧
    videoMessageFields "AA==" ≠ specVideoMessageFields "AA==" ∧
    (audioMessageFields "AA==").map Prod.fst = ["type", "mime", "data_b64"] ∧
    ((audioMessageFields "AA==").map Prod.fst).contains "dataEncoded" = false := by
  decide

/-- Amended C8: every outbound audio message has exactly the fields
`type: "client.audio"`, `mime: "audio/pcm;rate=16000"`, `data_b64`,
and every outbound video message has exactly `type: "client.video"`,
`mime: "image/jpeg"`, `data_b64`. -/
theorem C8_amended_schema : ∀ (running : Bool) (p q : String) (m : List (String × String)),
    (m ∈ onAudioProcessSend running p →
      m = [("type", "client.audio"), ("mime", "audio/pcm;rate=16000"), ("data_b64", p)]) ∧
    (m ∈ sendVisualFrameMsgs running q →
      m = [("type", "client.video"), ("mime", "image/jpeg"), ("data_b64", q)]) := by
  intro running p q m
  cases running <;>
    simp [onAudioProcessSend, sendVisualFrameMsgs, audioMessageFields, videoMessageFields]

/-- Witness for the amended C8 on concrete payloads. -/
theorem C8_witness :
    audioMessageFields "AA==" =
      [("type", "client.audio"), ("mime", "audio/pcm;rate=16000"), ("data_b64", "AA==")] ∧
    videoMessageFields "BB==" =
      [("type", "client.video"), ("mime", "image/jpeg"), ("data_b64", "BB==")] :=
  ⟨(C8_amended_schema true "AA==" "BB==" (audioMessageFields "AA==")).1 (by decide),
   (C8_amended_schema true "AA==" "BB==" (videoMessageFields "BB==")).2 (by decide)⟩

/-- Claim C9: `floatToPcm16Bytes` clamps each sample to `[-1, 1]`, then
scales negatives by 32768 and non-negatives by 32767 (JS truncation to
an `Int16Array` element); every output lies in `[-32768, 32767]`, with
-1 mapped to -32768 and 1 mapped to 32767. -/
theorem C9_pcm16_quantization :
    (∀ x : ℚ,
      floatToPcm16Sample x
        = jsTrunc (if max (-1) (min 1 x) < 0 then max (-1) (min 1 x) * 32768
                   else max (-1) (min 1 x) * 32767) ∧
      -32768 ≤ floatToPcm16Sample x ∧ floatToPcm16Sample x ≤ 32767) ∧
    floatToPcm16Sample (-1) = -32768 ∧ floatToPcm16Sample 1 = 32767 := by
  refine ⟨fun x => ?_,
    by norm_num [floatToPcm16Sample, toInt16, jsTrunc, Int.ceil_neg],
    by norm_num [floatToPcm16Sample, toInt16, jsTrunc]⟩
  have hs1 : (-1 : ℚ) ≤ max (-1) (min 1 x) := le_max_left _ _
  have hs2 : max (-1) (min 1 x) ≤ 1 := max_le (by norm_num) (min_le_left _ _)
  by_cases hneg : max (-1) (min 1 x) < 0
  · have hvneg : max (-1) (min 1 x) * 32768 < 0 := by nlinarith
    have hjt : jsTrunc (max (-1) (min 1 x) * 32768) = ⌈max (-1) (min 1 x) * 32768⌉ := by
      simp [jsTrunc, hvneg]
    have hlow : (-32768 : ℤ) ≤ ⌈max (-1) (min 1 x) * 32768⌉ := by
      have ha : (-32768 : ℚ) ≤ max (-1) (min 1 x) * 32768 := by nlinarith
      have hb := Int.le_ceil (max (-1) (min 1 x) * 32768)
      exact_mod_cast ha.trans hb
    have hhigh : ⌈max (-1) (min 1 x) * 32768⌉ ≤ 32767 := by
      have h0 : ⌈max (-1) (min 1 x) * 32768⌉ ≤ 0 := Int.ceil_le.mpr (by push_cast; linarith)
      omega
    have heq : floatToPcm16Sample x = jsTrunc (max (-1) (min 1 x) * 32768) := by
      simp only [floatToPcm16Sample, if_pos hneg]
      exact toInt16_eq_jsTrunc _ (by rw [hjt]; exact hlow) (by rw [hjt]; exact hhigh)
    refine ⟨by rw [heq, if_pos hneg], ?_, ?_⟩
    · rw [heq, hjt]; exact hlow
    · rw [heq, hjt]; exact hhigh
  · have hsnn : (0 : ℚ) ≤ max (-1) (min 1 x) := not_lt.mp hneg
    have hvnn : (0 : ℚ) ≤ max (-1) (min 1 x) * 32767 := by nlinarith
    have hjt : jsTrunc (max (-1) (min 1 x) * 32767) = ⌊max (-1) (min 1 x) * 32767⌋ := by
      simp [jsTrunc, not_lt.mpr hvnn]
    have hlow : (-32768 : ℤ) ≤ ⌊max (-1) (min 1 x) * 32767⌋ := by
      have h0 : (0 : ℤ) ≤ ⌊max (-1) (min 1 x) * 32767⌋ := Int.le_floor.mpr (by push_cast; linarith)
      omega
    have hhigh : ⌊max (-1) (min 1 x) * 32767⌋ ≤ 32767 := by
      have ha : max (-1) (min 1 x) * 32767 ≤ 32767 := by nlinarith
      have hb := Int.floor_le (max (-1) (min 1 x) * 32767)
      exact_mod_cast hb.trans ha
    have heq : floatToPcm16Sample x = jsTrunc (max (-1) (min 1 x) * 32767) := by
      simp only [floatToPcm16Sample, if_neg hneg]
      exact toInt16_eq_jsTrunc _ (by rw [hjt]; exact hlow) (by rw [hjt]; exact hhigh)
    refine ⟨by rw [heq, if_neg hneg], ?_, ?_⟩
    · rw [heq, hjt]; exact hlow
    · rw [heq, hjt]; exact hhigh

/-- Claim C10: an inbound audio message with the mime field absent is
handled exactly as one declaring `audio/pcm;rate=24000` (the default
parameter) and is scheduled when it holds at least one frame; a
present mime that is `null`, a non-string, or a string not starting
with `audio/pcm` is rejected with the cursor unchanged, while a
present PCM string mime is accepted. -/
theorem C10_default_mime : ∀ (cursor t : ℚ) (bytes : List ℕ) (ctx : Bool),
    queuePlaybackChunk cursor t ctx bytes JsVal.undef
      = queuePlaybackChunk cursor t ctx bytes (JsVal.str "audio/pcm;rate=24000") ∧
    (ctx = true → 2 ≤ bytes.length →
      (queuePlaybackChunk cursor t ctx bytes JsVal.undef).2 ≠ none) ∧
    queuePlaybackChunk cursor t ctx bytes JsVal.nullv = (cursor, none) ∧
    queuePlaybackChunk cursor t ctx bytes JsVal.other = (cursor, none) ∧
    (∀ m : String, lowerStartsWith m "audio/pcm" = true → ctx = true → 2 ≤ bytes.length →
      (queuePlaybackChunk cursor t ctx bytes (JsVal.str m)).2 ≠ none) := by
  intro c t b ctx
  have hm : mimeAccepted (JsVal.str "audio/pcm;rate=24000") = true := by decide
  refine ⟨?_, ?_, ?_, ?_, ?_⟩
  · cases ctx <;> simp [queuePlaybackChunk]
  · intro hctx hlen
    subst hctx
    have hf : ¬ b.length / 2 = 0 := by omega
    simp [queuePlaybackChunk, hm, hf]
  · cases ctx <;> simp [queuePlaybackChunk, mimeAccepted]
  · cases ctx <;> simp [queuePlaybackChunk, mimeAccepted]
  · intro m hsw hctx hlen
    subst hctx
    have hf : ¬ b.length / 2 = 0 := by omega
    simp [queuePlaybackChunk, mimeAccepted, hsw, hf]

/-- Witness for C10: a 4-byte payload with no mime is scheduled and
equals the explicit-PCM handling; a `null` mime is rejected; an
upper-case PCM mime is accepted. -/
theorem C10_witness :
    queuePlaybackChunk 0 0 true [7, 0, 7, 0] JsVal.undef
      = queuePlaybackChunk 0 0 true [7, 0, 7, 0] (JsVal.str "audio/pcm;rate=24000") ∧
    (queuePlaybackChunk 0 0 true [7, 0, 7, 0] JsVal.undef).2 ≠ none ∧
    queuePlaybackChunk 0 0 true [7, 0, 7, 0] JsVal.nullv = (0, none) ∧
    (queuePlaybackChunk 0 0 true [7, 0, 7, 0] (JsVal.str "Audio/PCM")).2 ≠ none :=
  ⟨(C10_default_mime 0 0 [7, 0, 7, 0] true).1,
   (C10_default_mime 0 0 [7, 0, 7, 0] true).2.1 rfl (by decide),
   (C10_default_mime 0 0 [7, 0, 7, 0] true).2.2.1,
   (C10_default_mime 0 0 [7, 0, 7, 0] true).2.2.2.2 "Audio/PCM" (by decide) rfl (by decide)⟩

end Vista
